import Mathlib

/-
  A shallow embedding of the helmet-guard-vision detection-to-alert
  pipeline: the verdict engine and compliance logic of the
  HelmetDetector component, the database trigger logic of the safety
  alert store, the realtime alert dispatcher, and the email-sending
  edge function.  Machine numbers are modelled as rationals and
  fallible operations as Except or Option values.
-/

namespace HelmetGuard

/-- Bounding box as produced by mapping raw detector output in analyzeFrame. -/
structure BoundingBox where
  x : ℚ
  y : ℚ
  width : ℚ
  height : ℚ
  confidence : ℚ
  label : String
deriving Repr, DecidableEq

/-- Raw box coordinates returned by the object classifier. -/
structure RawBox where
  xmin : ℚ
  ymin : ℚ
  xmax : ℚ
  ymax : ℚ
deriving Repr, DecidableEq

/-- One raw classifier detection: label, score and box. -/
structure RawDet where
  label : String
  score : ℚ
  box : RawBox
deriving Repr, DecidableEq

/-- Per-frame verdict record produced by the engine. -/
structure DetectionResult where
  hasHelmet : Bool
  confidence : ℚ
  timestamp : ℚ
  boundingBoxes : List BoundingBox
deriving Repr, DecidableEq

/-- Whether the character list starts with the given pattern. -/
def startsWithChars : List Char → List Char → Bool
  | [], _ => true
  | _ :: _, [] => false
  | a :: as, b :: bs => a == b && startsWithChars as bs

/-- Whether the pattern occurs as a contiguous run in the character list. -/
def containsChars (pat : List Char) : List Char → Bool
  | [] => startsWithChars pat []
  | c :: rest => startsWithChars pat (c :: rest) || containsChars pat rest

/-- JavaScript substring containment test, as in String.includes. -/
def strIncludes (s pat : String) : Bool := containsChars pat.data s.data

/-- Helmet label test of analyzeFrame: the label includes hat, helmet or hardhat. -/
def isHelmetLabel (label : String) : Bool :=
  strIncludes label "hat" || strIncludes label "helmet" || strIncludes label "hardhat"

/-- Mapping from raw detector output to overlay bounding boxes. -/
def toBoundingBox (obj : RawDet) : BoundingBox :=
  { x := obj.box.xmin
    y := obj.box.ymin
    width := obj.box.xmax - obj.box.xmin
    height := obj.box.ymax - obj.box.ymin
    confidence := obj.score
    label := obj.label }

/-- Maximum of a spread list, as in Math.max; the engine only applies it to
nonempty lists, so the value on the empty list is never consulted. -/
def maxScores : List ℚ → ℚ
  | [] => 0
  | x :: xs => xs.foldl max x

/-- Person partition of analyzeFrame: detected objects whose label is exactly
person. -/
def personsOf (results : List RawDet) : List BoundingBox :=
  (results.map toBoundingBox).filter (fun obj => obj.label == "person")

/-- Helmet partition of analyzeFrame: detected objects whose label includes
hat, helmet or hardhat. -/
def helmetsOf (results : List RawDet) : List BoundingBox :=
  (results.map toBoundingBox).filter (fun obj => isHelmetLabel obj.label)

/-- Verdict engine core of analyzeFrame: partition the detections into
persons and helmet-labelled objects and aggregate a compliance verdict. -/
def verdictEngine (results : List RawDet) (ts : ℚ) : DetectionResult :=
  let persons := personsOf results
  let helmets := helmetsOf results
  let hasHelmet := decide (persons.length > 0) && decide (helmets.length > 0)
  let confidence :=
    if helmets.length > 0 then maxScores (helmets.map (fun h => h.confidence))
    else if persons.length > 0 then (3 : ℚ)/10 else (1 : ℚ)/10
  { hasHelmet := hasHelmet
    confidence := confidence
    timestamp := ts
    boundingBoxes := persons ++ helmets }

/-- Degraded-mode fallback verdict built in the catch branch of analyzeFrame.
The flag hasMotion stands for the comparison of the first random sample with
0.4, and r is the second random sample, drawn from the unit interval. -/
def mockDetectionResult (hasMotion : Bool) (r : ℚ) (ts : ℚ) : DetectionResult :=
  let mockConfidence := if hasMotion then 7/10 + r * (2/10) else 2/10 + r * (3/10)
  { hasHelmet := hasMotion
    confidence := mockConfidence
    timestamp := ts
    boundingBoxes :=
      if hasMotion then
        [{ x := 100, y := 50, width := 200, height := 250,
           confidence := mockConfidence, label := if hasMotion then "helmet" else "person" }]
      else [] }

/-- One analysis pass: the verdict together with a flag recording that
saveDetection was invoked on it.  The catch branch substitutes the
degraded-mode verdict, so the pass itself never surfaces an error. -/
def analyzeFrame (classifierOutput : Except String (List RawDet))
    (hasMotion : Bool) (r : ℚ) (ts : ℚ) : Except String (DetectionResult × Bool) :=
  match classifierOutput with
  | .ok results => .ok (verdictEngine results ts, true)
  | .error _ => .ok (mockDetectionResult hasMotion r ts, true)

/-- Ok test on Except values. -/
def exceptOk {ε α : Type} : Except ε α → Bool
  | .ok _ => true
  | .error _ => false

/-- Notifications, the toast signals emitted by the compliance logic. -/
inductive Notification where
  | granted
  | denied
deriving Repr, DecidableEq

/-- Per-frame helmet verdict as consumed by the compliance logic. -/
structure Verdict where
  hasHelmet : Bool
  confidence : ℚ
deriving Repr, DecidableEq

/-- Initial access state of the HelmetDetector component. -/
def initialAccessGranted : Bool := false

/-- Transition of the access state on one verdict, returning the new state
and the notification emitted, mirroring the grant and deny branches at the
end of analyzeFrame. -/
def complianceStep (accessGranted : Bool) (v : Verdict) : Bool × Option Notification :=
  if v.hasHelmet && decide (v.confidence > 6/10) then
    if !accessGranted then (true, some Notification.granted) else (accessGranted, none)
  else
    if accessGranted || (!accessGranted && decide (v.confidence > 6/10)) then
      (false, some Notification.denied)
    else (accessGranted, none)

/-- Trace of notifications emitted while folding verdicts through the state,
one entry per verdict. -/
def complianceTrace : Bool → List Verdict → List (Option Notification)
  | _, [] => []
  | s, v :: vs => (complianceStep s v).2 :: complianceTrace (complianceStep s v).1 vs

/-- Row of the helmet detections table. -/
structure DetectionRow where
  id : ℕ
  has_helmet : Bool
  confidence : ℚ
  location : String
deriving Repr, DecidableEq

/-- Row of the safety alerts table as created by the trigger. -/
structure AlertRow where
  detection_id : ℕ
  alert_type : String
  message : String
  severity : String
deriving Repr, DecidableEq

/-- Violation predicate of the alert trigger: no helmet detected and
confidence above 0.6. -/
def violationPredicate (has_helmet : Bool) (confidence : ℚ) : Bool :=
  !has_helmet && decide (confidence > 6/10)

/-- Message text built by the alert trigger. -/
def alertMessage (location : String) (confidence : ℚ) : String :=
  "SAFETY ALERT: Worker detected without helmet at " ++ location ++ " with "
    ++ toString (round (confidence * 100) : ℤ) ++ "% confidence"

/-- Trigger function creating a helmet violation alert, run once for each
inserted detection row. -/
def create_helmet_violation_alert (alerts : List AlertRow) (new : DetectionRow) : List AlertRow :=
  if violationPredicate new.has_helmet new.confidence then
    alerts ++ [{ detection_id := new.id
                 alert_type := "helmet_violation"
                 message := alertMessage new.location new.confidence
                 severity := "critical" }]
  else alerts

/-- Persistent store: detection rows, alert rows and the id generator. -/
structure DB where
  detections : List DetectionRow
  alerts : List AlertRow
  nextId : ℕ
deriving Repr, DecidableEq

/-- Empty store. -/
def emptyDB : DB := { detections := [], alerts := [], nextId := 0 }

/-- Insert of one detection record; the after-insert trigger runs the alert
creation function on the new row. -/
def insertDetection (db : DB) (has_helmet : Bool) (confidence : ℚ) (location : String) : DB :=
  let row : DetectionRow :=
    { id := db.nextId, has_helmet := has_helmet, confidence := confidence, location := location }
  { detections := db.detections ++ [row]
    alerts := create_helmet_violation_alert db.alerts row
    nextId := db.nextId + 1 }

/-- Fold a list of detection inputs into the store. -/
def insertAll : DB → List (Bool × ℚ × String) → DB
  | db, [] => db
  | db, (h, c, loc) :: rest => insertAll (insertDetection db h c loc) rest

/-- Alert record as seen by the realtime dispatcher; timestamps are rationals. -/
structure SafetyAlert where
  id : String
  alert_type : String
  message : String
  severity : String
  email_sent : Bool
  acknowledged : Bool
  created_at : ℚ
  updated_at : ℚ
deriving Repr, DecidableEq

/-- Payload of the invocation of the send-safety-alert function. -/
structure EmailPayload where
  alertId : String
  workerEmail : String
  alertMessage : String
  severity : String
  location : String
  timestamp : ℚ
deriving Repr, DecidableEq

/-- Body built by sendEmailAlert in RealtimeAlerts. -/
def sendEmailAlert (alert : SafetyAlert) : EmailPayload :=
  { alertId := alert.id
    workerEmail := "secejenish23@gmail.com"
    alertMessage := alert.message
    severity := alert.severity
    location := "Mine Site"
    timestamp := alert.created_at }

/-- Insert handler of the realtime subscription: invoke the email transport
for critical alerts whose email flag is not yet set. -/
def onAlertCreated (newAlert : SafetyAlert) : Option EmailPayload :=
  if newAlert.severity == "critical" && !newAlert.email_sent then
    some (sendEmailAlert newAlert)
  else none

/-- Trigger function stamping the updated at column, run before each update
of a safety alert row. -/
def update_updated_at_column (row : SafetyAlert) (now : ℚ) : SafetyAlert :=
  { row with updated_at := now }

/-- Acknowledge action: an update keyed by the alert id setting the
acknowledged flag; the before-update trigger stamps the updated at column. -/
def acknowledgeAlert (alertsDb : List SafetyAlert) (alertId : String) (now : ℚ) : List SafetyAlert :=
  alertsDb.map fun a =>
    if a.id = alertId then update_updated_at_column { a with acknowledged := true } now else a

/-- Response of the send-safety-alert edge function. -/
inductive HandlerResponse where
  | success (emailId : String)
  | failure (errorMessage : String)
deriving Repr, DecidableEq

/-- Error test on handler responses. -/
def isErrorResponse : HandlerResponse → Bool
  | .failure _ => true
  | .success _ => false

/-- Edge function handler: send the email, and only on transport success mark
the alert emailed with a single update keyed by the alert id; a transport
failure is caught and surfaced as an error response.  The third component
counts email transport invocations. -/
def handler (alertsDb : List SafetyAlert) (req : EmailPayload)
    (resendApiKeyPresent : Bool) (emailOk : Bool) (now : ℚ) :
    List SafetyAlert × HandlerResponse × ℕ :=
  if !resendApiKeyPresent then
    (alertsDb, HandlerResponse.failure "RESEND_API_KEY is not configured", 0)
  else if !emailOk then
    (alertsDb, HandlerResponse.failure "Failed to send email", 1)
  else
    (alertsDb.map fun a =>
        if a.id = req.alertId then update_updated_at_column { a with email_sent := true } now
        else a,
      HandlerResponse.success "sent", 1)

/-- Field names of the invoke body built in sendEmailAlert, in source order. -/
def sendEmailAlertBodyFields : List String :=
  ["alertId", "workerEmail", "alertMessage", "severity", "location", "timestamp"]

/-- Field names of the SafetyAlertRequest interface destructured by the edge
function handler, in source order. -/
def safetyAlertRequestFields : List String :=
  ["alertId", "workerEmail", "alertMessage", "severity", "location", "timestamp"]

/-- Sample critical alert, not yet emailed and not yet acknowledged. -/
def sampleAlert : SafetyAlert :=
  { id := "a1", alert_type := "helmet_violation"
    message := "SAFETY ALERT", severity := "critical"
    email_sent := false, acknowledged := false, created_at := 0, updated_at := 0 }

/-- Sample critical alert whose email flag is already set. -/
def sampleEmailedAlert : SafetyAlert := { sampleAlert with email_sent := true }

/-- Sample transport payload for the sample alert. -/
def samplePayload : EmailPayload := sendEmailAlert sampleAlert

/-- Sample classifier output: one person and one hardhat. -/
def sampleResults : List RawDet :=
  [ { label := "person", score := 95/100, box := { xmin := 0, ymin := 0, xmax := 1, ymax := 1 } },
    { label := "hardhat", score := 85/100, box := { xmin := 0, ymin := 0, xmax := 1, ymax := 1 } } ]

/-- The hardhat detection of the sample classifier output. -/
def hardhatDet : RawDet :=
  { label := "hardhat", score := 85/100, box := { xmin := 0, ymin := 0, xmax := 1, ymax := 1 } }

/-- Store invariant maintained by detection inserts. -/
def dbInv (db : DB) : Prop :=
  (∀ d ∈ db.detections, d.id < db.nextId) ∧
  (∀ a ∈ db.alerts, a.detection_id < db.nextId) ∧
  (∀ d ∈ db.detections,
      db.alerts.countP (fun a => a.detection_id == d.id)
        = if violationPredicate d.has_helmet d.confidence then 1 else 0) ∧
  (∀ a ∈ db.alerts, a.alert_type = "helmet_violation" ∧ a.severity = "critical")

lemma init_le_foldl_max (x : ℚ) (l : List ℚ) : x ≤ l.foldl max x := by
  induction l generalizing x with
  | nil => exact le_refl x
  | cons a as ih => exact le_trans (le_max_left x a) (ih (max x a))

lemma le_foldl_max_of_mem {y : ℚ} {l : List ℚ} (x : ℚ) (hy : y ∈ l) : y ≤ l.foldl max x := by
  induction l generalizing x with
  | nil => cases hy
  | cons a as ih =>
    rcases List.mem_cons.mp hy with h | h
    · subst h; exact le_trans (le_max_right x y) (init_le_foldl_max (max x y) as)
    · exact ih (max x a) h

lemma foldl_max_mem (x : ℚ) (l : List ℚ) : l.foldl max x = x ∨ l.foldl max x ∈ l := by
  induction l generalizing x with
  | nil => exact Or.inl rfl
  | cons a as ih =>
    show as.foldl max (max x a) = x ∨ as.foldl max (max x a) ∈ a :: as
    rcases ih (max x a) with h | h
    · rcases max_choice x a with hx | ha
      · exact Or.inl (h.trans hx)
      · exact Or.inr (List.mem_cons.mpr (Or.inl (h.trans ha)))
    · exact Or.inr (List.mem_cons.mpr (Or.inr h))

lemma maxScores_mem {l : List ℚ} (h : l ≠ []) : maxScores l ∈ l := by
  cases l with
  | nil => exact absurd rfl h
  | cons x xs =>
    rcases foldl_max_mem x xs with h1 | h1
    · exact List.mem_cons.mpr (Or.inl (by simpa [maxScores] using h1))
    · exact List.mem_cons.mpr (Or.inr (by simpa [maxScores] using h1))

lemma le_maxScores_of_mem {y : ℚ} {l : List ℚ} (hy : y ∈ l) : y ≤ maxScores l := by
  cases l with
  | nil => cases hy
  | cons x xs =>
    rcases List.mem_cons.mp hy with h | h
    · subst h; exact init_le_foldl_max y xs
    · exact le_foldl_max_of_mem x h

lemma mem_personsOf {b : BoundingBox} {results : List RawDet} :
    b ∈ personsOf results ↔ ∃ d ∈ results, toBoundingBox d = b ∧ d.label = "person" := by
  simp only [personsOf, List.mem_filter, List.mem_map]
  constructor
  · rintro ⟨⟨d, hd, rfl⟩, hp⟩
    exact ⟨d, hd, rfl, by simpa [toBoundingBox] using hp⟩
  · rintro ⟨d, hd, rfl, hp⟩
    exact ⟨⟨d, hd, rfl⟩, by simpa [toBoundingBox] using hp⟩

lemma mem_helmetsOf {b : BoundingBox} {results : List RawDet} :
    b ∈ helmetsOf results ↔ ∃ d ∈ results, toBoundingBox d = b ∧ isHelmetLabel d.label = true := by
  simp only [helmetsOf, List.mem_filter, List.mem_map]
  constructor
  · rintro ⟨⟨d, hd, rfl⟩, hp⟩
    exact ⟨d, hd, rfl, by simpa [toBoundingBox] using hp⟩
  · rintro ⟨d, hd, rfl, hp⟩
    exact ⟨⟨d, hd, rfl⟩, by simpa [toBoundingBox] using hp⟩

lemma personsOf_ne_nil_iff {results : List RawDet} :
    personsOf results ≠ [] ↔ ∃ d ∈ results, d.label = "person" := by
  constructor
  · intro h
    obtain ⟨b, hb⟩ := List.exists_mem_of_ne_nil _ h
    obtain ⟨d, hd, _, hp⟩ := mem_personsOf.mp hb
    exact ⟨d, hd, hp⟩
  · rintro ⟨d, hd, hp⟩
    exact List.ne_nil_of_mem (mem_personsOf.mpr ⟨d, hd, rfl, hp⟩)

lemma helmetsOf_ne_nil_iff {results : List RawDet} :
    helmetsOf results ≠ [] ↔ ∃ d ∈ results, isHelmetLabel d.label = true := by
  constructor
  · intro h
    obtain ⟨b, hb⟩ := List.exists_mem_of_ne_nil _ h
    obtain ⟨d, hd, _, hp⟩ := mem_helmetsOf.mp hb
    exact ⟨d, hd, hp⟩
  · rintro ⟨d, hd, hp⟩
    exact List.ne_nil_of_mem (mem_helmetsOf.mpr ⟨d, hd, rfl, hp⟩)

/-- Claim C2: the compliance logic starts in the denied state, and the
verdict sequence true 0.9, true 0.9, false 0.9 emits exactly one granted
notification after the first verdict, none after the second, and exactly
one denied notification after the third. -/
theorem C2_compliance_trace :
    initialAccessGranted = false ∧
    complianceTrace initialAccessGranted
        [⟨true, 9/10⟩, ⟨true, 9/10⟩, ⟨false, 9/10⟩]
      = [some Notification.granted, none, some Notification.denied] := by
  have h : ((9:ℚ)/10 > 6/10) := by norm_num
  refine ⟨rfl, ?_⟩
  simp [initialAccessGranted, complianceTrace, complianceStep, h]

/-- Claim C3, counterexample: in the denied state, a no-helmet verdict of
confidence 0.9 leaves the state unchanged and still emits a denied
notification, so notifications are not emitted only on edges. -/
theorem C3_counterexample :
    (complianceStep false ⟨false, 9/10⟩).1 = false ∧
    (complianceStep false ⟨false, 9/10⟩).2 = some Notification.denied := by
  have h : ((9:ℚ)/10 > 6/10) := by norm_num
  simp [complianceStep, h]

/-- Claim C3, amended: a granted notification is emitted exactly on the
denied-to-granted edge; a denied notification is emitted exactly when the
verdict fails the helmet test and either the state was granted, or the
state was denied and the failing verdict has confidence above 0.6, the
latter being a re-emitted denial on a self-transition. -/
theorem C3_notification_characterization (s : Bool) (v : Verdict) :
    ((complianceStep s v).2 = some Notification.granted ↔
       s = false ∧ (v.hasHelmet && decide (v.confidence > 6/10)) = true) ∧
    ((complianceStep s v).2 = some Notification.denied ↔
       (v.hasHelmet && decide (v.confidence > 6/10)) = false ∧
         (s = true ∨ v.confidence > 6/10)) := by
  cases s <;> cases hv : v.hasHelmet <;>
    by_cases h : v.confidence > 6/10 <;>
      simp [complianceStep, hv, h]

/-- Claim C8: the payload built by the dispatcher and the request shape
parsed by the email transport function carry exactly the same field names,
in the same order. -/
theorem C8_payload_fields : sendEmailAlertBodyFields = safetyAlertRequestFields := rfl

/-- Claim C5: the realtime dispatcher invokes the email transport exactly
when the delivered alert is critical and not yet emailed; an already
emailed alert never triggers a second invocation. -/
theorem C5_dispatch_guard (a : SafetyAlert) :
    ((onAlertCreated a).isSome ↔ a.severity = "critical" ∧ a.email_sent = false) ∧
    (a.email_sent = true → onAlertCreated a = none) := by
  by_cases hs : a.severity = "critical" <;> cases he : a.email_sent <;>
    simp [onAlertCreated, hs, he]

/-- Claim C5, witness: the sample already-emailed critical alert does not
trigger the transport. -/
theorem C5_witness :
    sampleEmailedAlert.email_sent = true ∧ onAlertCreated sampleEmailedAlert = none :=
  ⟨rfl, (C5_dispatch_guard sampleEmailedAlert).2 rfl⟩

/-- Claim C9: a classifier failure is caught by the analysis pass, which
substitutes the degraded-mode pseudo-random verdict, still persists it, and
never surfaces the failure. -/
theorem C9_degraded_mode (input : Except String (List RawDet))
    (hasMotion : Bool) (r ts : ℚ) :
    (∀ e, input = Except.error e →
        analyzeFrame input hasMotion r ts = Except.ok (mockDetectionResult hasMotion r ts, true)) ∧
    exceptOk (analyzeFrame input hasMotion r ts) = true := by
  cases input <;> simp [analyzeFrame, exceptOk]

/-- Claim C9, witness: a concrete classifier error yields the degraded-mode
verdict, persisted, with no error surfaced. -/
theorem C9_witness :
    (Except.error "boom" : Except String (List RawDet)) = Except.error "boom" ∧
    analyzeFrame (Except.error "boom") false 0 0
      = Except.ok (mockDetectionResult false 0 0, true) :=
  ⟨rfl, (C9_degraded_mode (Except.error "boom") false 0 0).1 "boom" rfl⟩

/-- Claim C6: the edge function marks the alert emailed, by a single update
keyed by the alert id, only after the transport succeeds; on transport
failure the store is untouched, an error response is surfaced instead of a
crash, and the transport is invoked exactly once, with no retry. -/
theorem C6_email_sent_after_success (db : List SafetyAlert) (req : EmailPayload) (now : ℚ) :
    ((handler db req true false now).1 = db) ∧
    (isErrorResponse (handler db req true false now).2.1 = true) ∧
    ((handler db req true false now).2.2 = 1) ∧
    (∀ a ∈ (handler db req true true now).1, a.id = req.alertId → a.email_sent = true) ∧
    (∀ a ∈ db, a.id ≠ req.alertId → a ∈ (handler db req true true now).1) := by
  refine ⟨rfl, rfl, rfl, ?_, ?_⟩
  · intro a ha hid
    simp only [handler, Bool.not_true, Bool.false_eq_true, if_false, List.mem_map] at ha
    obtain ⟨b, _, hb⟩ := ha
    by_cases h : b.id = req.alertId
    · rw [← hb]
      simp [h, update_updated_at_column]
    · rw [← hb] at hid
      simp [h] at hid
  · intro a ha hid
    have : (handler db req true true now).1 = db.map fun a =>
        if a.id = req.alertId then update_updated_at_column { a with email_sent := true } now
        else a := rfl
    rw [this]
    have : a = (fun a : SafetyAlert =>
        if a.id = req.alertId then update_updated_at_column { a with email_sent := true } now
        else a) a := by simp [hid]
    exact this ▸ List.mem_map_of_mem _ ha

/-- Claim C6, witness: with the sample alert and its payload, a failed
transport leaves the store unchanged and surfaces an error, and a
successful transport marks the stored alert emailed. -/
theorem C6_witness :
    (handler [sampleAlert] samplePayload true false 0).1 = [sampleAlert] ∧
    isErrorResponse (handler [sampleAlert] samplePayload true false 0).2.1 = true ∧
    update_updated_at_column { sampleAlert with email_sent := true } 0 ∈
      (handler [sampleAlert] samplePayload true true 0).1 ∧
    (update_updated_at_column { sampleAlert with email_sent := true } 0).email_sent = true := by
  have h := C6_email_sent_after_success [sampleAlert] samplePayload 0
  have hmem : update_updated_at_column { sampleAlert with email_sent := true } 0 ∈
      (handler [sampleAlert] samplePayload true true 0).1 := by
    simp [handler, sampleAlert, samplePayload, sendEmailAlert, update_updated_at_column]
  exact ⟨h.1, h.2.1, hmem,
    h.2.2.2.1 (update_updated_at_column { sampleAlert with email_sent := true } 0) hmem rfl⟩

/-- Claim C7, counterexample: acknowledging the sample alert twice bumps the
updated at column a second time, from the value stamped by the first
acknowledgement to the value stamped by the second. -/
theorem C7_counterexample :
    ((acknowledgeAlert [sampleAlert] "a1" 1).map fun a => a.updated_at) = [1] ∧
    ((acknowledgeAlert (acknowledgeAlert [sampleAlert] "a1" 1) "a1" 2).map
        fun a => a.updated_at) = [2] := by
  constructor <;>
    simp [acknowledgeAlert, update_updated_at_column, sampleAlert]

/-- Claim C7, amended: acknowledge sets the acknowledged flag on the alerts
matching the given id and preserves every other column except updated at,
which the before-update trigger stamps on every acknowledge call, including
a re-acknowledgement; re-acknowledging is error-free and equals a single
acknowledgement at the later time. -/
theorem C7_acknowledge_frame (db : List SafetyAlert) (alertId : String) (t1 t2 : ℚ) :
    ((acknowledgeAlert db alertId t1).map (fun a => a.id) = db.map (fun a => a.id)) ∧
    ((acknowledgeAlert db alertId t1).map (fun a => a.email_sent)
        = db.map (fun a => a.email_sent)) ∧
    ((acknowledgeAlert db alertId t1).map (fun a => a.alert_type)
        = db.map (fun a => a.alert_type)) ∧
    ((acknowledgeAlert db alertId t1).map (fun a => a.message) = db.map (fun a => a.message)) ∧
    ((acknowledgeAlert db alertId t1).map (fun a => a.severity)
        = db.map (fun a => a.severity)) ∧
    ((acknowledgeAlert db alertId t1).map (fun a => a.created_at)
        = db.map (fun a => a.created_at)) ∧
    ((acknowledgeAlert db alertId t1).map (fun a => a.acknowledged)
        = db.map (fun a => if a.id = alertId then true else a.acknowledged)) ∧
    ((acknowledgeAlert db alertId t1).map (fun a => a.updated_at)
        = db.map (fun a => if a.id = alertId then t1 else a.updated_at)) ∧
    (acknowledgeAlert (acknowledgeAlert db alertId t1) alertId t2
        = acknowledgeAlert db alertId t2) := by
  refine ⟨?_, ?_, ?_, ?_, ?_, ?_, ?_, ?_, ?_⟩ <;>
    · simp only [acknowledgeAlert, List.map_map]
      congr 1
      funext a
      by_cases h : a.id = alertId <;>
        simp [h, update_updated_at_column]

/-- Claim C10: whatever the random draws, a degraded-mode verdict without a
helmet has confidence in the interval from 0.2 inclusive to 0.5 exclusive,
below the violation threshold, and inserting any degraded-mode verdict
never creates an alert row. -/
theorem C10_degraded_no_alert (hasMotion : Bool) (r ts : ℚ) (h0 : 0 ≤ r) (h1 : r < 1) :
    (hasMotion = false →
      (2:ℚ)/10 ≤ (mockDetectionResult hasMotion r ts).confidence ∧
      (mockDetectionResult hasMotion r ts).confidence < (5:ℚ)/10) ∧
    violationPredicate (mockDetectionResult hasMotion r ts).hasHelmet
        (mockDetectionResult hasMotion r ts).confidence = false ∧
    (∀ db : DB, ∀ loc : String,
      (insertDetection db (mockDetectionResult hasMotion r ts).hasHelmet
          (mockDetectionResult hasMotion r ts).confidence loc).alerts = db.alerts) := by
  cases hasMotion with
  | true =>
    refine ⟨by simp, ?_, ?_⟩
    · simp [mockDetectionResult, violationPredicate]
    · intro db loc
      simp [insertDetection, create_helmet_violation_alert, violationPredicate,
        mockDetectionResult]
  | false =>
    have hconf : (mockDetectionResult false r ts).confidence = 2/10 + r * (3/10) := by
      simp [mockDetectionResult]
    have hge : (2:ℚ)/10 ≤ 2/10 + r * (3/10) := by nlinarith
    have hlt : (2:ℚ)/10 + r * (3/10) < 5/10 := by nlinarith
    have hnot : ¬((2:ℚ)/10 + r * (3/10) > 6/10) := by nlinarith
    refine ⟨fun _ => ⟨hconf ▸ hge, hconf ▸ hlt⟩, ?_, ?_⟩
    · simp [mockDetectionResult, violationPredicate, hnot]
    · intro db loc
      simp [insertDetection, create_helmet_violation_alert, violationPredicate,
        mockDetectionResult, hnot]

/-- Claim C10, witness: with both random draws at their low end, the
degraded-mode verdict fails the violation predicate. -/
theorem C10_witness :
    (0:ℚ) ≤ 0 ∧ (0:ℚ) < 1 ∧
    violationPredicate (mockDetectionResult false 0 0).hasHelmet
        (mockDetectionResult false 0 0).confidence = false :=
  ⟨le_refl 0, by norm_num,
    (C10_degraded_no_alert false 0 0 (le_refl 0) (by norm_num)).2.1⟩

/-- Claim C1: the verdict engine reports a helmet exactly when the
detection list holds at least one object labelled person and at least one
object whose label includes hat, helmet or hardhat; its confidence is the
maximum score over the helmet-labelled objects when one exists, else 0.3
when a person exists, else 0.1. -/
theorem C1_verdict_engine (results : List RawDet) (ts : ℚ) :
    ((verdictEngine results ts).hasHelmet = true ↔
        (∃ d ∈ results, d.label = "person") ∧ ∃ d ∈ results, isHelmetLabel d.label = true) ∧
    ((∃ d ∈ results, isHelmetLabel d.label = true) →
        (∃ d ∈ results, isHelmetLabel d.label = true
            ∧ (verdictEngine results ts).confidence = d.score) ∧
        ∀ d ∈ results, isHelmetLabel d.label = true →
            d.score ≤ (verdictEngine results ts).confidence) ∧
    ((¬ ∃ d ∈ results, isHelmetLabel d.label = true) →
        ((∃ d ∈ results, d.label = "person") →
            (verdictEngine results ts).confidence = (3:ℚ)/10) ∧
        (¬ (∃ d ∈ results, d.label = "person") →
            (verdictEngine results ts).confidence = (1:ℚ)/10)) := by
  have hH : (verdictEngine results ts).hasHelmet
      = (decide ((personsOf results).length > 0)
          && decide ((helmetsOf results).length > 0)) := rfl
  have hC : (verdictEngine results ts).confidence
      = (if (helmetsOf results).length > 0
          then maxScores ((helmetsOf results).map (fun h => h.confidence))
          else if (personsOf results).length > 0 then (3:ℚ)/10 else (1:ℚ)/10) := rfl
  refine ⟨?_, ?_, ?_⟩
  · rw [hH]
    simp [Bool.and_eq_true, decide_eq_true_eq, List.length_pos,
      personsOf_ne_nil_iff, helmetsOf_ne_nil_iff]
  · intro hex
    have hne : helmetsOf results ≠ [] := helmetsOf_ne_nil_iff.mpr hex
    have hlen : (helmetsOf results).length > 0 := List.length_pos.mpr hne
    have hCif : (verdictEngine results ts).confidence
        = maxScores ((helmetsOf results).map (fun h => h.confidence)) := by
      rw [hC, if_pos hlen]
    constructor
    · have hmapne : ((helmetsOf results).map (fun h => h.confidence)) ≠ [] := by
        simpa using hne
      have hmem := maxScores_mem hmapne
      obtain ⟨b, hb, hbc⟩ := List.mem_map.mp hmem
      obtain ⟨d, hd, hdb, hdl⟩ := mem_helmetsOf.mp hb
      refine ⟨d, hd, hdl, ?_⟩
      rw [hCif, ← hbc, ← hdb]
      rfl
    · intro d hd hdl
      have hbmem : toBoundingBox d ∈ helmetsOf results :=
        mem_helmetsOf.mpr ⟨d, hd, rfl, hdl⟩
      have hcm : (toBoundingBox d).confidence
          ∈ (helmetsOf results).map (fun h => h.confidence) :=
        List.mem_map_of_mem _ hbmem
      have hle := le_maxScores_of_mem hcm
      rw [hCif]
      exact hle
  · intro hnoh
    have hne : helmetsOf results = [] := by
      by_contra h
      exact hnoh (helmetsOf_ne_nil_iff.mp h)
    have hlen : ¬ ((helmetsOf results).length > 0) := by simp [hne]
    constructor
    · intro hp
      have hpn : personsOf results ≠ [] := personsOf_ne_nil_iff.mpr hp
      have hpl : (personsOf results).length > 0 := List.length_pos.mpr hpn
      rw [hC, if_neg hlen, if_pos hpl]
    · intro hp
      have hpn : personsOf results = [] := by
        by_contra h
        exact hp (personsOf_ne_nil_iff.mp h)
      rw [hC, if_neg hlen, if_neg (by simp [hpn])]

/-- Claim C1, witness: on the sample output with one person of score 0.95
and one hardhat of score 0.85, the hardhat is helmet-labelled and its score
bounds the reported confidence from below. -/
theorem C1_witness :
    isHelmetLabel hardhatDet.label = true ∧
    hardhatDet.score ≤ (verdictEngine sampleResults 0).confidence := by
  have hmem : hardhatDet ∈ sampleResults := by simp [hardhatDet, sampleResults]
  have hlab : isHelmetLabel hardhatDet.label = true := rfl
  exact ⟨hlab,
    ((C1_verdict_engine sampleResults 0).2.1 ⟨hardhatDet, hmem, hlab⟩).2 hardhatDet hmem hlab⟩

lemma dbInv_emptyDB : dbInv emptyDB := by
  simp [dbInv, emptyDB]

lemma dbInv_insertDetection {db : DB} (h : dbInv db) (hh : Bool) (c : ℚ) (loc : String) :
    dbInv (insertDetection db hh c loc) := by
  obtain ⟨h1, h2, h3, h4⟩ := h
  have hdet : (insertDetection db hh c loc).detections
      = db.detections ++ [⟨db.nextId, hh, c, loc⟩] := rfl
  have hal : (insertDetection db hh c loc).alerts
      = (if violationPredicate hh c
          then db.alerts ++ [⟨db.nextId, "helmet_violation", alertMessage loc c, "critical"⟩]
          else db.alerts) := rfl
  have hnext : (insertDetection db hh c loc).nextId = db.nextId + 1 := rfl
  have hzero : List.countP (fun a => a.detection_id == db.nextId) db.alerts = 0 := by
    rw [List.countP_eq_zero]
    intro a ha
    simp only [beq_iff_eq, decide_eq_true_eq]
    exact Nat.ne_of_lt (h2 a ha)
  refine ⟨?_, ?_, ?_, ?_⟩
  · intro d hd
    rw [hdet] at hd
    rw [hnext]
    rcases List.mem_append.mp hd with hmem | hmem
    · exact Nat.lt_succ_of_lt (h1 d hmem)
    · rw [List.mem_singleton] at hmem
      subst hmem
      exact Nat.lt_succ_self _
  · intro a ha
    rw [hal] at ha
    rw [hnext]
    by_cases hv : violationPredicate hh c = true
    · rw [if_pos hv] at ha
      rcases List.mem_append.mp ha with hmem | hmem
      · exact Nat.lt_succ_of_lt (h2 a hmem)
      · rw [List.mem_singleton] at hmem
        subst hmem
        exact Nat.lt_succ_self _
    · rw [if_neg hv] at ha
      exact Nat.lt_succ_of_lt (h2 a ha)
  · intro d hd
    rw [hdet] at hd
    rw [hal]
    rcases List.mem_append.mp hd with hmem | hmem
    · have hid := h1 d hmem
      by_cases hv : violationPredicate hh c = true
      · rw [if_pos hv, List.countP_append]
        have hone : List.countP (fun a => a.detection_id == d.id)
            [(⟨db.nextId, "helmet_violation", alertMessage loc c, "critical"⟩ : AlertRow)]
              = 0 := by
          simp only [List.countP_cons, List.countP_nil]
          simp [Nat.ne_of_gt hid]
        rw [hone, Nat.add_zero]
        exact h3 d hmem
      · rw [if_neg hv]
        exact h3 d hmem
    · rw [List.mem_singleton] at hmem
      subst hmem
      by_cases hv : violationPredicate hh c = true
      · rw [if_pos hv, List.countP_append]
        have hone : List.countP
            (fun a => a.detection_id == (⟨db.nextId, hh, c, loc⟩ : DetectionRow).id)
            [(⟨db.nextId, "helmet_violation", alertMessage loc c, "critical"⟩ : AlertRow)]
              = 1 := by
          simp [List.countP_cons]
        rw [hone]
        have hzero2 : List.countP
            (fun a => a.detection_id == (⟨db.nextId, hh, c, loc⟩ : DetectionRow).id)
            db.alerts = 0 := hzero
        rw [hzero2]
        simp [hv]
      · rw [if_neg hv]
        have hzero2 : List.countP
            (fun a => a.detection_id == (⟨db.nextId, hh, c, loc⟩ : DetectionRow).id)
            db.alerts = 0 := hzero
        rw [hzero2]
        simp [hv]
  · intro a ha
    rw [hal] at ha
    by_cases hv : violationPredicate hh c = true
    · rw [if_pos hv] at ha
      rcases List.mem_append.mp ha with hmem | hmem
      · exact h4 a hmem
      · rw [List.mem_singleton] at hmem
        subst hmem
        exact ⟨rfl, rfl⟩
    · rw [if_neg hv] at ha
      exact h4 a ha

lemma dbInv_insertAll (inputs : List (Bool × ℚ × String)) :
    ∀ db : DB, dbInv db → dbInv (insertAll db inputs) := by
  induction inputs with
  | nil => exact fun db h => h
  | cons x rest ih =>
    intro db h
    obtain ⟨hh, c, loc⟩ := x
    exact ih _ (dbInv_insertDetection h hh c loc)

/-- Claim C4: in every store reachable by inserting detections into the
empty store, each persisted detection is referenced by exactly one alert
row when it satisfies the violation predicate and by none otherwise, and
every alert row carries the helmet violation type and critical severity. -/
theorem C4_alert_iff_violation (inputs : List (Bool × ℚ × String)) :
    (∀ d ∈ (insertAll emptyDB inputs).detections,
        (insertAll emptyDB inputs).alerts.countP (fun a => a.detection_id == d.id)
          = if violationPredicate d.has_helmet d.confidence then 1 else 0) ∧
    (∀ a ∈ (insertAll emptyDB inputs).alerts,
        a.alert_type = "helmet_violation" ∧ a.severity = "critical") := by
  have h := dbInv_insertAll inputs emptyDB dbInv_emptyDB
  exact ⟨h.2.2.1, h.2.2.2⟩

/-- Claim C4, witness: inserting one helmet-less detection of confidence
0.9 yields exactly one alert row referencing it. -/
theorem C4_witness :
    (insertAll emptyDB [(false, 9/10, "Mine Site - Camera 1")]).alerts.countP
        (fun a => a.detection_id == 0) = 1 := by
  have hmem : (⟨0, false, 9/10, "Mine Site - Camera 1"⟩ : DetectionRow)
      ∈ (insertAll emptyDB [(false, 9/10, "Mine Site - Camera 1")]).detections := by
    simp [insertAll, insertDetection, emptyDB]
  have h := (C4_alert_iff_violation [(false, 9/10, "Mine Site - Camera 1")]).1 _ hmem
  have hv : violationPredicate false (9/10) = true := by
    simp only [violationPredicate, Bool.not_false, Bool.true_and, decide_eq_true_eq]
    norm_num
  exact h.trans (by simp [hv])

end HelmetGuard
